import Mathlib

/-!
Verification of the exercise-timer state machine of the Rehabber repository.

The repository contains several timer implementations; the ones the claims cite are:
  * `useTimer` in src/client/src/hooks/use-timer-fixed.ts (the main hook: a single
    authoritative mutable record `timerStateRef` holding phase/set/side, with the React
    state kept synchronized to it; `proceedToNext` is the phase-transition algorithm),
  * `useSettingsTimer`, the second hook in the same file (decision logic duplicated in
    `transitionToRest` / `startExercisePhase` / `skip`, with settings-supplied defaults),
  * the `ExerciseTimer` class in src/client/src/lib/timer.ts.

The embedding below is a faithful transcription of the phase/set/side/lifecycle logic of
those functions.  Wall-clock bookkeeping (`Date.now()` anchors, 100 ms interval granularity)
is abstracted into an `elapse` command meaning !!the running countdown of the current phase
reached zero!!; the interval/timeout handle bookkeeping relevant to cancellation is embedded
separately (`HookTimers`, `fixedPauseFull`, `fixedResetFull`) so that the pure transition
model stays executable.  Since the code keeps `timerStateRef` and the rendered React copies
of set/side/phase forcibly synchronized at every command boundary (the FORCED
SYNCHRONIZATION blocks), the model carries one copy of each field.  Callbacks
(`onSetComplete` / `onSideChange` / `onComplete`) are modelled as emitted event lists.
-/

namespace Rehabber

/-- Lifecycle states of a timer; `TimerState` in the source. -/
inductive Lifecycle
  | inactive
  | running
  | paused
  | completed
deriving DecidableEq, Repr

/-- Which side of the body a bilateral exercise is on. -/
inductive Side
  | left
  | right
deriving DecidableEq, Repr

/-- Which countdown governs the current phase; field `phase` of `timerStateRef`. -/
inductive Phase
  | exercise
  | rest
deriving DecidableEq, Repr

/-- Side traversal policy; `SideStrategy` in the source. -/
inductive SideStrategy
  | alternate
  | sequential
deriving DecidableEq, Repr

/-- Configuration of the `useTimer` hook (`TimerConfig` in the source), with the
settings-store defaulting already resolved (durations are whole seconds, as JS numbers;
embedded as integers). -/
structure TimerConfig where
  duration : Int
  restDuration : Int
  sets : Nat
  sides : Bool
  sideStrategy : SideStrategy
deriving DecidableEq, Repr

/-- Callback invocations observable by the Host, in invocation order. -/
inductive TimerEvent
  | setComplete (set : Nat)
  | sideChange
  | complete
deriving DecidableEq, Repr

/-- State of the `useTimer` hook of use-timer-fixed.ts: `timeRemaining`, `currentSet`,
`currentSide`, the phase of `timerStateRef` (the rendered `isResting` equals
`phase = rest` after each forced synchronization), the lifecycle `state`, and
`pausedTimeRef`. -/
structure HookState where
  timeRemaining : Int
  currentSet : Nat
  currentSide : Option Side
  phase : Phase
  lifecycle : Lifecycle
  pausedTime : Int
deriving DecidableEq, Repr

/-- Initial side: `sides ? 'left' : null`. -/
def initialSide (cfg : TimerConfig) : Option Side :=
  if cfg.sides then some Side.left else none

/-- State created by the hook body (use-timer-fixed.ts lines 52-74): `useState(duration)`,
set 1, initial side, exercise phase, lifecycle `inactive`, `pausedTimeRef` 0. -/
def initialHookState (cfg : TimerConfig) : HookState :=
  { timeRemaining := cfg.duration
    currentSet := 1
    currentSide := initialSide cfg
    phase := Phase.exercise
    lifecycle := Lifecycle.inactive
    pausedTime := 0 }

/-- Common tail of the non-completing rest-exit branches of `proceedToNext`
(use-timer-fixed.ts lines 228-231): phase back to exercise, `timeRemaining := duration`. -/
def exitRest (cfg : TimerConfig) (s : HookState) : HookState :=
  { s with phase := Phase.exercise, timeRemaining := cfg.duration }

/-- The phase-transition algorithm `proceedToNext` of the `useTimer` hook
(use-timer-fixed.ts lines 104-248), reading the authoritative `timerStateRef` values.
From an exercise phase it always switches to the rest phase with
`timeRemaining := restDuration` (lines 234-241, with no check of `restDuration`).
From a rest phase it advances set/side per the side strategy, firing the matching
callbacks, or marks the run completed (`return false`), in which case the common
tail does not run.  The third strategy branch mirrors the if / else-if chain of the
source, where a strategy matching neither literal would fall through to the tail;
it is unreachable for the two-valued enum. -/
def proceedToNext (cfg : TimerConfig) (s : HookState) : HookState × List TimerEvent :=
  if s.phase = Phase.rest then
    if cfg.sides = true then
      if cfg.sideStrategy = SideStrategy.alternate then
        if s.currentSide = some Side.left then
          (exitRest cfg { s with currentSide := some Side.right }, [TimerEvent.sideChange])
        else
          if s.currentSet < cfg.sets then
            (exitRest cfg { s with currentSet := s.currentSet + 1, currentSide := some Side.left },
              [TimerEvent.setComplete s.currentSet])
          else
            ({ s with lifecycle := Lifecycle.completed }, [TimerEvent.complete])
      else if cfg.sideStrategy = SideStrategy.sequential then
        if s.currentSide = some Side.left then
          if s.currentSet < cfg.sets then
            (exitRest cfg { s with currentSet := s.currentSet + 1 },
              [TimerEvent.setComplete s.currentSet])
          else
            (exitRest cfg { s with currentSet := 1, currentSide := some Side.right },
              [TimerEvent.sideChange])
        else
          if s.currentSet < cfg.sets then
            (exitRest cfg { s with currentSet := s.currentSet + 1 },
              [TimerEvent.setComplete s.currentSet])
          else
            ({ s with lifecycle := Lifecycle.completed }, [TimerEvent.complete])
      else
        (exitRest cfg s, [])
    else
      if s.currentSet < cfg.sets then
        (exitRest cfg { s with currentSet := s.currentSet + 1 },
          [TimerEvent.setComplete s.currentSet])
      else
        ({ s with lifecycle := Lifecycle.completed }, [TimerEvent.complete])
  else
    ({ s with phase := Phase.rest, timeRemaining := cfg.restDuration }, [])

/-- The `start` command (use-timer-fixed.ts lines 338-351): resets all counters and
references to the beginning state, then `startTimer` sets the lifecycle to running with
`timeRemaining` equal to the exercise duration.  `pausedTimeRef` is not reset. -/
def fixedStartCmd (cfg : TimerConfig) (s : HookState) : HookState :=
  { timeRemaining := cfg.duration
    currentSet := 1
    currentSide := initialSide cfg
    phase := Phase.exercise
    lifecycle := Lifecycle.running
    pausedTime := s.pausedTime }

/-- State immediately after constructing the hook and calling `start()`. -/
def fixedStart (cfg : TimerConfig) : HookState :=
  fixedStartCmd cfg (initialHookState cfg)

/-- Interval / prompt-timeout handles tracked by the `useTimer` hook
(`timerRef` and `promptTimeoutRef`). -/
structure HookTimers where
  timerRef : Option Nat
  promptTimeoutRef : Option Nat
deriving DecidableEq, Repr

/-- clearTimer (use-timer-fixed.ts lines 79-90): `clearInterval` on the tracked interval
handle and `clearTimeout` on the tracked prompt timeout, nulling both refs. -/
def clearTimer (h : HookTimers) : HookTimers :=
  { h with timerRef := none, promptTimeoutRef := none }

/-- pause (use-timer-fixed.ts lines 354-360) at the handle level: only from `running`;
cancels both tracked handles via `clearTimer`, records `pausedTimeRef := timeRemaining`,
and moves to `paused`.  Otherwise a no-op. -/
def fixedPauseFull (s : HookState) (h : HookTimers) : HookState × HookTimers :=
  if s.lifecycle = Lifecycle.running then
    ({ s with lifecycle := Lifecycle.paused, pausedTime := s.timeRemaining }, clearTimer h)
  else (s, h)

/-- State component of `pause`. -/
def fixedPause (s : HookState) : HookState :=
  (fixedPauseFull s { timerRef := none, promptTimeoutRef := none }).1

/-- reset (use-timer-fixed.ts lines 426-436) at the handle level: from any state, cancels
both tracked handles and restores the initial counters with lifecycle `inactive`
(`pausedTimeRef` is not touched). -/
def fixedResetFull (cfg : TimerConfig) (s : HookState) (h : HookTimers) :
    HookState × HookTimers :=
  ({ timeRemaining := cfg.duration
     currentSet := 1
     currentSide := initialSide cfg
     phase := Phase.exercise
     lifecycle := Lifecycle.inactive
     pausedTime := s.pausedTime }, clearTimer h)

/-- State component of `reset`. -/
def fixedReset (cfg : TimerConfig) (s : HookState) : HookState :=
  (fixedResetFull cfg s { timerRef := none, promptTimeoutRef := none }).1

/-- resume (use-timer-fixed.ts lines 363-423): only from `paused`; re-anchors the clock to
`Date.now() - (phaseDuration - pausedTime) * 1000` and returns to `running`.  The stored
fields other than the lifecycle are unchanged. -/
def fixedResume (s : HookState) : HookState :=
  if s.lifecycle = Lifecycle.paused then { s with lifecycle := Lifecycle.running } else s

/-- skip (use-timer-fixed.ts lines 439-478): only from `running` or `paused`; runs
`proceedToNext` synchronously.  If the run completed, nothing further happens; if it was
running, `startTimer` restarts the clock for the phase `proceedToNext` installed; if it
was paused it stays paused and `pausedTimeRef` is set from the closure-captured (stale,
pre-skip) `isResting` value. -/
def fixedSkip (cfg : TimerConfig) (s : HookState) : HookState × List TimerEvent :=
  if s.lifecycle = Lifecycle.running ∨ s.lifecycle = Lifecycle.paused then
    if (proceedToNext cfg s).1.lifecycle = Lifecycle.completed then proceedToNext cfg s
    else if s.lifecycle = Lifecycle.running then proceedToNext cfg s
    else
      ({ (proceedToNext cfg s).1 with
          pausedTime := if s.phase = Phase.rest then cfg.restDuration else cfg.duration },
        (proceedToNext cfg s).2)
  else (s, [])

/-- Tail of `nextSet` (use-timer-fixed.ts lines 569-584) for its non-completing branches:
when running, `startTimer` restarts the exercise clock (lifecycle and `timeRemaining` are
already as the branch set them); when paused, the state stays paused and
`pausedTimeRef := duration`. -/
def nextSetTail (cfg : TimerConfig) (s : HookState) : HookState :=
  if s.lifecycle = Lifecycle.paused then { s with pausedTime := cfg.duration } else s

/-- nextSet, the advance-set command (use-timer-fixed.ts lines 481-585): only from
`running` or `paused`.  For sequential sides it advances within the current side, switches
left to right after the last left set, or completes after the last right set; otherwise it
advances the set (resetting the side to left when sides are on) or completes.  Each
non-final advance fires `onSetComplete` with the set being left. -/
def fixedNextSet (cfg : TimerConfig) (s : HookState) : HookState × List TimerEvent :=
  if s.lifecycle = Lifecycle.running ∨ s.lifecycle = Lifecycle.paused then
    if cfg.sides = true ∧ cfg.sideStrategy = SideStrategy.sequential then
      if s.currentSide = some Side.left then
        if s.currentSet < cfg.sets then
          (nextSetTail cfg { s with
              currentSet := s.currentSet + 1
              timeRemaining := cfg.duration
              phase := Phase.exercise },
            [TimerEvent.setComplete s.currentSet])
        else
          (nextSetTail cfg { s with
              currentSet := 1
              currentSide := some Side.right
              timeRemaining := cfg.duration
              phase := Phase.exercise },
            [TimerEvent.sideChange])
      else if s.currentSide = some Side.right then
        if s.currentSet < cfg.sets then
          (nextSetTail cfg { s with
              currentSet := s.currentSet + 1
              timeRemaining := cfg.duration
              phase := Phase.exercise },
            [TimerEvent.setComplete s.currentSet])
        else
          ({ s with lifecycle := Lifecycle.completed }, [TimerEvent.complete])
      else
        (nextSetTail cfg s, [])
    else
      if s.currentSet < cfg.sets then
        (nextSetTail cfg { s with
            currentSet := s.currentSet + 1
            currentSide := if cfg.sides then some Side.left else s.currentSide
            timeRemaining := cfg.duration
            phase := Phase.exercise },
          [TimerEvent.setComplete s.currentSet])
      else
        ({ s with lifecycle := Lifecycle.completed }, [TimerEvent.complete])
  else (s, [])

/-- The countdown of the current phase reaching zero while running (the interval body of
`startTimer`, use-timer-fixed.ts lines 299-329): the interval is cleared and
`proceedToNext` runs; when it continues, `startTimer` starts the next phase with the
`timeRemaining` and lifecycle `proceedToNext` installed.  An interval only exists while
running, so this fires in no other lifecycle state. -/
def fixedElapse (cfg : TimerConfig) (s : HookState) : HookState × List TimerEvent :=
  if s.lifecycle = Lifecycle.running then proceedToNext cfg s else (s, [])

/-- Public commands of the hook, plus the internal countdown-elapse step. -/
inductive Cmd
  | start
  | pause
  | resume
  | reset
  | skip
  | advanceSet
  | elapse
deriving DecidableEq, Repr

/-- One command applied to the `useTimer` hook state, with the callbacks it fires. -/
def fixedStep (cfg : TimerConfig) : Cmd → HookState → HookState × List TimerEvent
  | Cmd.start, s => (fixedStartCmd cfg s, [])
  | Cmd.pause, s => (fixedPause s, [])
  | Cmd.resume, s => (fixedResume s, [])
  | Cmd.reset, s => (fixedReset cfg s, [])
  | Cmd.skip, s => fixedSkip cfg s
  | Cmd.advanceSet, s => fixedNextSet cfg s
  | Cmd.elapse, s => fixedElapse cfg s

/-- States of the `useTimer` hook reachable from construction by any command sequence. -/
inductive FixedReachable (cfg : TimerConfig) : HookState → Prop
  | init : FixedReachable cfg (initialHookState cfg)
  | step (c : Cmd) (s : HookState) :
      FixedReachable cfg s → FixedReachable cfg (fixedStep cfg c s).1

/-- Iterate a step function, concatenating the events fired. -/
def iterStep (f : HookState → HookState × List TimerEvent) :
    Nat → HookState → HookState × List TimerEvent
  | 0, s => (s, [])
  | n + 1, s =>
    let p := iterStep f n s
    let q := f p.1
    (q.1, p.2 ++ q.2)

/-- The list of set-complete events for sets 1..k, in order. -/
def setCompletes (k : Nat) : List TimerEvent :=
  (List.range k).map (fun i => TimerEvent.setComplete (i + 1))

/-- Whether an event is a set-complete callback. -/
def isSetComplete : TimerEvent → Bool
  | TimerEvent.setComplete _ => true
  | _ => false

/-- Whether an event is a side-change callback. -/
def isSideChange : TimerEvent → Bool
  | TimerEvent.sideChange => true
  | _ => false

/-- Number of `onSetComplete` invocations in an event trace. -/
def countSetComplete (evs : List TimerEvent) : Nat := (evs.filter isSetComplete).length

/-- Number of `onSideChange` invocations in an event trace. -/
def countSideChange (evs : List TimerEvent) : Nat := (evs.filter isSideChange).length

/-- State of the `useSettingsTimer` hook (second hook of use-timer-fixed.ts):
`timeRemaining`, `currentSet`, `currentSide`, the `isResting` flag, the lifecycle,
and `pausedTimeRef`.  The `stateRef` mirror is kept synchronized by a `useEffect`, so one
copy of each field is carried. -/
structure SettingsState where
  timeRemaining : Int
  currentSet : Nat
  currentSide : Option Side
  isResting : Bool
  lifecycle : Lifecycle
  pausedTime : Int
deriving DecidableEq, Repr

/-- Initial `useSettingsTimer` state (use-timer-fixed.ts lines 652-662). -/
def settingsInit (cfg : TimerConfig) : SettingsState :=
  { timeRemaining := cfg.duration
    currentSet := 1
    currentSide := initialSide cfg
    isResting := false
    lifecycle := Lifecycle.inactive
    pausedTime := 0 }

/-- startExercisePhase (use-timer-fixed.ts lines 808-813 head): clear timer, `isResting`
false, `timeRemaining := duration`, lifecycle running, new interval. -/
def startExercisePhase (cfg : TimerConfig) (s : SettingsState) : SettingsState :=
  { s with isResting := false, timeRemaining := cfg.duration, lifecycle := Lifecycle.running }

/-- transitionToRest (use-timer-fixed.ts lines 692-698 head): clear timer, `isResting`
true, `timeRemaining := restDuration`, lifecycle running, new interval. -/
def transitionToRest (cfg : TimerConfig) (s : SettingsState) : SettingsState :=
  { s with isResting := true, timeRemaining := cfg.restDuration, lifecycle := Lifecycle.running }

/-- The set/side decision logic of `useSettingsTimer`, duplicated verbatim in the source at
the end of a rest countdown (lines 705-803), in the no-rest fall-through of an exercise
countdown (lines 828-894), and in the rest branch of `skip` (lines 978-1041): advance the
set or side per the strategy, firing the matching callback, then `startExercisePhase`; or
mark the run completed and fire `onComplete`. -/
def settingsAdvance (cfg : TimerConfig) (s : SettingsState) : SettingsState × List TimerEvent :=
  if cfg.sides = true then
    if cfg.sideStrategy = SideStrategy.alternate then
      if s.currentSide = some Side.left then
        (startExercisePhase cfg { s with currentSide := some Side.right },
          [TimerEvent.sideChange])
      else
        if s.currentSet < cfg.sets then
          (startExercisePhase cfg
              { s with currentSet := s.currentSet + 1, currentSide := some Side.left },
            [TimerEvent.setComplete s.currentSet])
        else
          ({ s with lifecycle := Lifecycle.completed }, [TimerEvent.complete])
    else
      if s.currentSide = some Side.left then
        if s.currentSet < cfg.sets then
          (startExercisePhase cfg { s with currentSet := s.currentSet + 1 },
            [TimerEvent.setComplete s.currentSet])
        else
          (startExercisePhase cfg { s with currentSet := 1, currentSide := some Side.right },
            [TimerEvent.sideChange])
      else
        if s.currentSet < cfg.sets then
          (startExercisePhase cfg { s with currentSet := s.currentSet + 1 },
            [TimerEvent.setComplete s.currentSet])
        else
          ({ s with lifecycle := Lifecycle.completed }, [TimerEvent.complete])
  else
    if s.currentSet < cfg.sets then
      (startExercisePhase cfg { s with currentSet := s.currentSet + 1 },
        [TimerEvent.setComplete s.currentSet])
    else
      ({ s with lifecycle := Lifecycle.completed }, [TimerEvent.complete])

/-- start of `useSettingsTimer` (lines 901-911): reset counters, then
`startExercisePhase`. -/
def settingsStart (cfg : TimerConfig) (s : SettingsState) : SettingsState :=
  startExercisePhase cfg
    { timeRemaining := cfg.duration
      currentSet := 1
      currentSide := initialSide cfg
      isResting := false
      lifecycle := Lifecycle.running
      pausedTime := s.pausedTime }

/-- pause of `useSettingsTimer` (lines 914-920): only from `running`. -/
def settingsPause (s : SettingsState) : SettingsState :=
  if s.lifecycle = Lifecycle.running then
    { s with lifecycle := Lifecycle.paused, pausedTime := s.timeRemaining }
  else s

/-- resume of `useSettingsTimer` (lines 923-962): only from `paused`; re-anchors the clock
and returns to running. -/
def settingsResume (s : SettingsState) : SettingsState :=
  if s.lifecycle = Lifecycle.paused then { s with lifecycle := Lifecycle.running } else s

/-- reset of `useSettingsTimer` (lines 965-972). -/
def settingsReset (cfg : TimerConfig) (s : SettingsState) : SettingsState :=
  { timeRemaining := cfg.duration
    currentSet := 1
    currentSide := initialSide cfg
    isResting := false
    lifecycle := Lifecycle.inactive
    pausedTime := s.pausedTime }

/-- skip of `useSettingsTimer` (lines 975-1046).  There is no lifecycle guard: when not
resting it calls `transitionToRest` unconditionally (even from `inactive` or `completed`,
and even when the rest duration is zero); when resting it runs the decision logic. -/
def settingsSkip (cfg : TimerConfig) (s : SettingsState) : SettingsState × List TimerEvent :=
  if s.isResting = true then settingsAdvance cfg s
  else (transitionToRest cfg s, [])

/-- nextSet of `useSettingsTimer` (lines 1049-1070).  No lifecycle guard: below the last
set it fires `onSetComplete` with the current set, increments the set and starts the next
exercise phase; on the last set it completes and fires `onComplete`. -/
def settingsNextSet (cfg : TimerConfig) (s : SettingsState) : SettingsState × List TimerEvent :=
  if s.currentSet < cfg.sets then
    (startExercisePhase cfg { s with currentSet := s.currentSet + 1 },
      [TimerEvent.setComplete s.currentSet])
  else
    ({ s with lifecycle := Lifecycle.completed }, [TimerEvent.complete])

/-- A countdown of `useSettingsTimer` reaching zero while running: at the end of a rest
phase the decision logic runs (lines 705-803); at the end of an exercise phase
`transitionToRest` runs when `restDuration > 0`, otherwise the decision logic runs
directly (lines 821-896). -/
def settingsElapse (cfg : TimerConfig) (s : SettingsState) : SettingsState × List TimerEvent :=
  if s.lifecycle = Lifecycle.running then
    if s.isResting = true then settingsAdvance cfg s
    else if 0 < cfg.restDuration then (transitionToRest cfg s, [])
    else settingsAdvance cfg s
  else (s, [])

/-- Commands of `useSettingsTimer` other than `skip` (the countdown-elapse step plus the
guarded public commands). -/
inductive SettingsCmd
  | start
  | pause
  | resume
  | reset
  | advanceSet
  | elapse
deriving DecidableEq, Repr

/-- One `useSettingsTimer` command (skip excluded), with the callbacks it fires. -/
def settingsStep (cfg : TimerConfig) : SettingsCmd → SettingsState → SettingsState × List TimerEvent
  | SettingsCmd.start, s => (settingsStart cfg s, [])
  | SettingsCmd.pause, s => (settingsPause s, [])
  | SettingsCmd.resume, s => (settingsResume s, [])
  | SettingsCmd.reset, s => (settingsReset cfg s, [])
  | SettingsCmd.advanceSet, s => settingsNextSet cfg s
  | SettingsCmd.elapse, s => settingsElapse cfg s

/-- `useSettingsTimer` states reachable from construction without invoking `skip`. -/
inductive SettingsReachable (cfg : TimerConfig) : SettingsState → Prop
  | init : SettingsReachable cfg (settingsInit cfg)
  | step (c : SettingsCmd) (s : SettingsState) :
      SettingsReachable cfg s → SettingsReachable cfg (settingsStep cfg c s).1

/-- The `ExerciseTimer` class of src/client/src/lib/timer.ts: tracked interval handle,
clock anchor, remaining seconds and the pause flag.  Field initializers of the class give
the construction-time values. -/
structure ExerciseTimer where
  timerId : Option Nat
  startTime : Int
  remainingTime : Int
  isPaused : Bool
deriving DecidableEq, Repr

/-- Observable callbacks of `ExerciseTimer` (`onTick` with the remaining seconds, and
`onComplete`). -/
inductive ExEvent
  | tick (remaining : Int)
  | complete
deriving DecidableEq, Repr

/-- JavaScript runtime errors relevant here. -/
inductive JsError
  | referenceError
deriving DecidableEq, Repr

/-- Construction-time field values of `ExerciseTimer` (timer.ts lines 8-11); the
constructor itself only stores the two callbacks. -/
def ExerciseTimer.initial : ExerciseTimer :=
  { timerId := none, startTime := 0, remainingTime := 0, isPaused := false }

/-- ExerciseTimer.stop (timer.ts lines 76-81): clear the interval and null the handle. -/
def ExerciseTimer.stop (t : ExerciseTimer) : ExerciseTimer :=
  if t.timerId ≠ none then { t with timerId := none } else t

/-- ExerciseTimer.start (timer.ts lines 29-52): stop any interval, set
`remainingTime := duration`, anchor `startTime := Date.now()`, clear the pause flag,
store a fresh interval handle, and fire the initial `onTick`. -/
def ExerciseTimer.start (t : ExerciseTimer) (d now : Int) (freshId : Nat) :
    ExerciseTimer × List ExEvent :=
  ({ ExerciseTimer.stop t with
      remainingTime := d
      startTime := now
      isPaused := false
      timerId := some freshId },
    [ExEvent.tick d])

/-- The interval body of `ExerciseTimer.start` (timer.ts lines 35-48), with `d` the
`duration` captured by the closure: a flagged (paused) tick returns immediately, leaving
the state untouched and firing nothing; otherwise the remaining time is recomputed from
the anchor, and at zero the timer stops and fires `onComplete`, else `onTick`. -/
def ExerciseTimer.intervalTick (t : ExerciseTimer) (d now : Int) :
    ExerciseTimer × List ExEvent :=
  if t.isPaused = true then (t, [])
  else
    let elapsedTime : Int := (now - t.startTime).fdiv 1000
    let r : Int := d - elapsedTime
    if r ≤ 0 then
      (ExerciseTimer.stop { t with remainingTime := 0 }, [ExEvent.complete])
    else
      ({ t with remainingTime := r }, [ExEvent.tick r])

/-- ExerciseTimer.pause (timer.ts lines 57-61): when an interval exists and the timer is
not yet paused, set the `isPaused` flag.  The interval handle is not cancelled. -/
def ExerciseTimer.pause (t : ExerciseTimer) : ExerciseTimer :=
  if t.timerId ≠ none ∧ t.isPaused = false then { t with isPaused := true } else t

/-- ExerciseTimer.resume (timer.ts lines 66-71).  The body first clears `isPaused`
(line 68), then evaluates `duration - this.remainingTime` (line 69) — but `duration` is
the parameter of `start`, not a field of the class nor a module-level binding, so the
identifier is unbound there: the statement throws a ReferenceError at run time (and
TypeScript rejects the file with Cannot find name duration).  The embedding returns the
state as mutated before the throw, together with the raised error. -/
def ExerciseTimer.resume (t : ExerciseTimer) : ExerciseTimer × Option JsError :=
  if t.timerId ≠ none ∧ t.isPaused = true then
    ({ t with isPaused := false }, some JsError.referenceError)
  else (t, none)

/-- IEEE-754 double values as produced by the percent computation: a finite value (the
inputs are whole or fractional seconds, represented exactly as rationals), NaN, or a
signed infinity. -/
inductive JsNum
  | finite (q : ℚ)
  | nan
  | posInf
  | negInf
deriving DecidableEq

/-- JavaScript division on numbers.  The cases exercised here are finite / finite: with a
zero divisor, 0 / 0 is NaN and x / 0 is the infinity of the sign of x; otherwise exact
rational division. -/
def jsDiv : JsNum → JsNum → JsNum
  | JsNum.nan, _ => JsNum.nan
  | _, JsNum.nan => JsNum.nan
  | JsNum.finite a, JsNum.finite b =>
      if b = 0 then
        if a = 0 then JsNum.nan else if 0 < a then JsNum.posInf else JsNum.negInf
      else JsNum.finite (a / b)
  | JsNum.posInf, JsNum.finite b => if 0 ≤ b then JsNum.posInf else JsNum.negInf
  | JsNum.negInf, JsNum.finite b => if 0 ≤ b then JsNum.negInf else JsNum.posInf
  | JsNum.finite _, JsNum.posInf => JsNum.finite 0
  | JsNum.finite _, JsNum.negInf => JsNum.finite 0
  | _, _ => JsNum.nan

/-- JavaScript multiplication on numbers: NaN propagates, an infinity times a nonzero
finite keeps or flips its sign and times zero is NaN, finite times finite is exact. -/
def jsMul : JsNum → JsNum → JsNum
  | JsNum.nan, _ => JsNum.nan
  | _, JsNum.nan => JsNum.nan
  | JsNum.finite a, JsNum.finite b => JsNum.finite (a * b)
  | JsNum.posInf, JsNum.finite b =>
      if b = 0 then JsNum.nan else if 0 < b then JsNum.posInf else JsNum.negInf
  | JsNum.negInf, JsNum.finite b =>
      if b = 0 then JsNum.nan else if 0 < b then JsNum.negInf else JsNum.posInf
  | JsNum.finite a, JsNum.posInf =>
      if a = 0 then JsNum.nan else if 0 < a then JsNum.posInf else JsNum.negInf
  | JsNum.finite a, JsNum.negInf =>
      if a = 0 then JsNum.nan else if 0 < a then JsNum.negInf else JsNum.posInf
  | JsNum.posInf, JsNum.posInf => JsNum.posInf
  | JsNum.posInf, JsNum.negInf => JsNum.negInf
  | JsNum.negInf, JsNum.posInf => JsNum.negInf
  | JsNum.negInf, JsNum.negInf => JsNum.posInf

/-- Whether a JavaScript number is finite (neither NaN nor an infinity). -/
def JsNum.isFinite : JsNum → Bool
  | JsNum.finite _ => true
  | _ => false

/-- The derived progress value of both hooks (use-timer-fixed.ts line 77 and line 681,
and use-timer.ts line 52):
`(timeRemaining / (isResting ? restDuration : duration)) * 100`, with no guard on the
divisor. -/
def percentRemaining (timeRemaining : JsNum) (isResting : Bool)
    (restDuration duration : JsNum) : JsNum :=
  jsMul (jsDiv timeRemaining (if isResting then restDuration else duration))
    (JsNum.finite 100)

/-- Construction errors that a validating constructor would report; the hooks define no
such type because they never validate. -/
inductive ConstructError
  | invalidConfig
deriving DecidableEq, Repr

/-- Construction of the `useTimer` hook (use-timer-fixed.ts lines 42-74): the body only
initializes state from the configuration, with no validation of `duration` or `sets` and
no throwing path.  The `Except` codomain records that no error is ever returned. -/
def useTimerConstruct (cfg : TimerConfig) : Except ConstructError HookState :=
  Except.ok (initialHookState cfg)

/-- State of the no-sides `useTimer` run after an even number `2 * k` of countdown
elapses: exercise phase of set `k + 1`, still running. -/
def noSidesEvenState (cfg : TimerConfig) (k : Nat) : HookState :=
  { timeRemaining := cfg.duration
    currentSet := k + 1
    currentSide := none
    phase := Phase.exercise
    lifecycle := Lifecycle.running
    pausedTime := 0 }

/-- State of the no-sides `useTimer` run after `2 * k + 1` countdown elapses: rest phase
of set `k + 1`, still running. -/
def noSidesOddState (cfg : TimerConfig) (k : Nat) : HookState :=
  { timeRemaining := cfg.restDuration
    currentSet := k + 1
    currentSide := none
    phase := Phase.rest
    lifecycle := Lifecycle.running
    pausedTime := 0 }

/-- Configuration for claim C1: no-rest, no-sides, two sets. -/
def cfgC1 : TimerConfig :=
  { duration := 3, restDuration := 0, sets := 2, sides := false
    sideStrategy := SideStrategy.sequential }

/-- The state the `useTimer` hook reaches from `start()` when the first exercise
countdown of `cfgC1` elapses: the zero-length rest phase. -/
def c1BadState : HookState :=
  { timeRemaining := 0
    currentSet := 1
    currentSide := none
    phase := Phase.rest
    lifecycle := Lifecycle.running
    pausedTime := 0 }

/-- A running `ExerciseTimer` mid-countdown (started with duration 3 at time 0, one tick
at 1000 ms), not yet paused. -/
def c2Timer : ExerciseTimer :=
  { timerId := some 1, startTime := 0, remainingTime := 2, isPaused := false }

/-- The same mid-countdown `ExerciseTimer` after `pause()`: 2 seconds remaining
recorded. -/
def c5Timer : ExerciseTimer :=
  { timerId := some 1, startTime := 0, remainingTime := 2, isPaused := true }

/-- Configuration for claim C3 as stated, at `totalSets = 1`. -/
def cfgC3 : TimerConfig :=
  { duration := 3, restDuration := 2, sets := 1, sides := false
    sideStrategy := SideStrategy.sequential }

/-- Configuration witnessing the amended claim C3 at `totalSets = 2`. -/
def cfgC3w : TimerConfig :=
  { duration := 3, restDuration := 2, sets := 2, sides := false
    sideStrategy := SideStrategy.sequential }

/-- Configuration for claim C4 as stated, at `totalSets = 1` with no rest and no sides. -/
def cfgC4 : TimerConfig :=
  { duration := 5, restDuration := 0, sets := 1, sides := false
    sideStrategy := SideStrategy.sequential }

/-- Configuration witnessing the amended claim C4 at `totalSets = 2`. -/
def cfgC4w : TimerConfig :=
  { duration := 5, restDuration := 0, sets := 2, sides := false
    sideStrategy := SideStrategy.sequential }

/-- Configuration of the claim C6 scenario: duration 3, rest 2, two sets, sequential
sides. -/
def cfgC6 : TimerConfig :=
  { duration := 3, restDuration := 2, sets := 2, sides := true
    sideStrategy := SideStrategy.sequential }

/-- Configuration used for the claim C7 analysis. -/
def cfgC7 : TimerConfig :=
  { duration := 3, restDuration := 2, sets := 2, sides := false
    sideStrategy := SideStrategy.sequential }

/-- An invalid configuration per claim C8: non-positive duration and zero sets. -/
def cfgC8 : TimerConfig :=
  { duration := -1, restDuration := 10, sets := 0, sides := false
    sideStrategy := SideStrategy.sequential }

/-- Configuration used for the claim C10 witness. -/
def cfgC10 : TimerConfig :=
  { duration := 3, restDuration := 2, sets := 2, sides := false
    sideStrategy := SideStrategy.sequential }

/-- The reachable rest-phase state of `cfgC10` used for the claim C10 witness. -/
def c10State : HookState :=
  { timeRemaining := 2
    currentSet := 1
    currentSide := none
    phase := Phase.rest
    lifecycle := Lifecycle.running
    pausedTime := 0 }

lemma fixedElapse_running (cfg : TimerConfig) (s : HookState)
    (h : s.lifecycle = Lifecycle.running) : fixedElapse cfg s = proceedToNext cfg s := by
  simp [fixedElapse, h]

lemma fixedSkip_running (cfg : TimerConfig) (s : HookState)
    (h : s.lifecycle = Lifecycle.running) : fixedSkip cfg s = proceedToNext cfg s := by
  simp [fixedSkip, h]

lemma setCompletes_succ (k : Nat) :
    setCompletes (k + 1) = setCompletes k ++ [TimerEvent.setComplete (k + 1)] := by
  simp [setCompletes, List.range_succ]

lemma countSetComplete_append (a b : List TimerEvent) :
    countSetComplete (a ++ b) = countSetComplete a + countSetComplete b := by
  simp [countSetComplete, List.filter_append]

lemma countSideChange_append (a b : List TimerEvent) :
    countSideChange (a ++ b) = countSideChange a + countSideChange b := by
  simp [countSideChange, List.filter_append]

lemma countSetComplete_setCompletes (k : Nat) : countSetComplete (setCompletes k) = k := by
  induction k with
  | zero => rfl
  | succ k ih => rw [setCompletes_succ, countSetComplete_append, ih]; rfl

lemma countSideChange_setCompletes (k : Nat) : countSideChange (setCompletes k) = 0 := by
  induction k with
  | zero => rfl
  | succ k ih => rw [setCompletes_succ, countSideChange_append, ih]; rfl

lemma settingsAdvance_isResting (cfg : TimerConfig) (s : SettingsState)
    (h : s.isResting = false) : ((settingsAdvance cfg s).1).isResting = false := by
  unfold settingsAdvance startExercisePhase
  split_ifs <;> simp [h]

lemma noSides_iter_even (cfg : TimerConfig) (f : HookState → HookState × List TimerEvent)
    (hf : ∀ s, s.lifecycle = Lifecycle.running → f s = proceedToNext cfg s)
    (hside : cfg.sides = false) (k : Nat) :
    k + 1 ≤ cfg.sets →
      iterStep f (2 * k) (fixedStart cfg) = (noSidesEvenState cfg k, setCompletes k) := by
  induction k with
  | zero =>
      intro _
      simp [iterStep, fixedStart, fixedStartCmd, initialHookState, initialSide, hside,
        noSidesEvenState, setCompletes]
  | succ k ih =>
      intro hk
      have ihh := ih (by omega)
      have hlt : k + 1 < cfg.sets := by omega
      have hfe : f (noSidesEvenState cfg k) = (noSidesOddState cfg k, []) := by
        rw [hf (noSidesEvenState cfg k) rfl]
        simp [proceedToNext, noSidesEvenState, noSidesOddState]
      have hfo : f (noSidesOddState cfg k) =
          (noSidesEvenState cfg (k + 1), [TimerEvent.setComplete (k + 1)]) := by
        rw [hf (noSidesOddState cfg k) rfl]
        simp [proceedToNext, noSidesOddState, noSidesEvenState, exitRest, hside, hlt]
      have h2 : 2 * (k + 1) = 2 * k + 1 + 1 := by ring
      rw [h2]
      simp [iterStep, ihh, hfe, hfo, setCompletes_succ]

lemma noSides_iter_complete (cfg : TimerConfig)
    (f : HookState → HookState × List TimerEvent)
    (hf : ∀ s, s.lifecycle = Lifecycle.running → f s = proceedToNext cfg s)
    (hside : cfg.sides = false) (hsets : 1 ≤ cfg.sets) :
    iterStep f (2 * cfg.sets) (fixedStart cfg) =
      ({ timeRemaining := cfg.restDuration
         currentSet := cfg.sets
         currentSide := none
         phase := Phase.rest
         lifecycle := Lifecycle.completed
         pausedTime := 0 },
        setCompletes (cfg.sets - 1) ++ [TimerEvent.complete]) := by
  obtain ⟨m, hm⟩ : ∃ m, cfg.sets = m + 1 := ⟨cfg.sets - 1, by omega⟩
  have heven := noSides_iter_even cfg f hf hside m (by omega)
  have hnlt : ¬ (m + 1 < cfg.sets) := by omega
  have hfe : f (noSidesEvenState cfg m) = (noSidesOddState cfg m, []) := by
    rw [hf (noSidesEvenState cfg m) rfl]
    simp [proceedToNext, noSidesEvenState, noSidesOddState]
  have hfo : f (noSidesOddState cfg m) =
      ({ timeRemaining := cfg.restDuration
         currentSet := m + 1
         currentSide := none
         phase := Phase.rest
         lifecycle := Lifecycle.completed
         pausedTime := 0 },
        [TimerEvent.complete]) := by
    rw [hf (noSidesOddState cfg m) rfl]
    simp [proceedToNext, noSidesOddState, hside, hnlt]
  have h2 : 2 * cfg.sets = 2 * m + 1 + 1 := by omega
  rw [h2]
  simp [iterStep, heven, hfe, hfo, hm]

/-- Claim C1, counterexample.  With restDuration = 0 (cfgC1) the rest phase is reachable
in the `useTimer` hook: after start, when the first exercise countdown elapses,
`proceedToNext` unconditionally switches the phase field to rest (with zero seconds
remaining), so the claimed invariant phase never equals rest is false. -/
theorem useTimer_restZero_enters_rest :
    FixedReachable cfgC1 c1BadState ∧ c1BadState.phase = Phase.rest := by
  constructor
  · have h0 : FixedReachable cfgC1 (initialHookState cfgC1) := FixedReachable.init
    have h1 := FixedReachable.step Cmd.start (initialHookState cfgC1) h0
    have h2 := FixedReachable.step Cmd.elapse
      (fixedStep cfgC1 Cmd.start (initialHookState cfgC1)).1 h1
    have he : (fixedStep cfgC1 Cmd.elapse
        (fixedStep cfgC1 Cmd.start (initialHookState cfgC1)).1).1 = c1BadState := by decide
    exact he ▸ h2
  · rfl

/-- Claim C1, amended: only the `useSettingsTimer` implementation, and only under
countdown-driven transitions and the guarded commands (skip excluded), never enters the
rest phase when restDuration = 0 — its exercise-countdown completion checks
`restDuration > 0` and otherwise falls through directly to the next set/side. -/
theorem settingsTimer_restZero_never_resting (cfg : TimerConfig)
    (hrest : cfg.restDuration = 0) (s : SettingsState)
    (hs : SettingsReachable cfg s) : s.isResting = false := by
  induction hs with
  | init => rfl
  | step c s hprev ih =>
      cases c with
      | start => simp [settingsStep, settingsStart, startExercisePhase]
      | pause =>
          simp only [settingsStep]
          unfold settingsPause
          split_ifs <;> simpa using ih
      | resume =>
          simp only [settingsStep]
          unfold settingsResume
          split_ifs <;> simpa using ih
      | reset => simp [settingsStep, settingsReset]
      | advanceSet =>
          simp only [settingsStep]
          unfold settingsNextSet startExercisePhase
          split_ifs <;> simp_all
      | elapse =>
          simp only [settingsStep]
          unfold settingsElapse
          split_ifs with h1 h2 h3
          · simp [ih] at h2
          · omega
          · exact settingsAdvance_isResting cfg s ih
          · simpa using ih

/-- Claim C1, witness for the amended theorem at the concrete no-rest configuration. -/
theorem settingsTimer_restZero_never_resting_witness :
    (settingsInit cfgC1).isResting = false :=
  settingsTimer_restZero_never_resting cfgC1 rfl (settingsInit cfgC1)
    SettingsReachable.init

/-- Claim C3, counterexample.  At totalSets = 1, hasSides = false (cfgC3), the full run
(two countdown elapses) completes with zero set-complete events, not the one event the
claim (exactly totalSets events) demands. -/
theorem useTimer_oneSet_no_setComplete :
    (iterStep (fixedElapse cfgC3) 2 (fixedStart cfgC3)).1.lifecycle = Lifecycle.completed ∧
    (iterStep (fixedElapse cfgC3) 2 (fixedStart cfgC3)).2 = [TimerEvent.complete] ∧
    countSetComplete ((iterStep (fixedElapse cfgC3) 2 (fixedStart cfgC3)).2) ≠ 1 := by
  decide

/-- Claim C3, amended: for hasSides = false and totalSets = n (n at least 1), running the
timer from start to completion fires exactly n - 1 onSetComplete events (for sets
1..n-1) and then onComplete; finishing the final set emits no set-complete event. -/
theorem useTimer_noSides_run_events (cfg : TimerConfig) (n : Nat) (hn : 1 ≤ n)
    (hsets : cfg.sets = n) (hside : cfg.sides = false) :
    (iterStep (fixedElapse cfg) (2 * n) (fixedStart cfg)).1.lifecycle =
      Lifecycle.completed ∧
    (iterStep (fixedElapse cfg) (2 * n) (fixedStart cfg)).2 =
      setCompletes (n - 1) ++ [TimerEvent.complete] ∧
    countSetComplete ((iterStep (fixedElapse cfg) (2 * n) (fixedStart cfg)).2) = n - 1 := by
  subst hsets
  have h := noSides_iter_complete cfg (fixedElapse cfg)
    (fun s hs => fixedElapse_running cfg s hs) hside hn
  rw [h]
  refine ⟨rfl, rfl, ?_⟩
  rw [countSetComplete_append, countSetComplete_setCompletes]
  rfl

/-- Claim C3, witness for the amended theorem at totalSets = 2. -/
theorem useTimer_noSides_run_events_witness :
    (iterStep (fixedElapse cfgC3w) (2 * 2) (fixedStart cfgC3w)).1.lifecycle =
      Lifecycle.completed ∧
    (iterStep (fixedElapse cfgC3w) (2 * 2) (fixedStart cfgC3w)).2 =
      setCompletes (2 - 1) ++ [TimerEvent.complete] ∧
    countSetComplete ((iterStep (fixedElapse cfgC3w) (2 * 2) (fixedStart cfgC3w)).2) =
      2 - 1 :=
  useTimer_noSides_run_events cfgC3w 2 (by decide) rfl rfl

/-- Claim C4, counterexample.  With restDuration = 0, hasSides = false, totalSets = 1
(cfgC4), a single skip after start does not complete the run and fires no callback: it
only moves the (zero-length) rest phase in, still running.  N skips therefore do not
drive the engine to completed. -/
theorem useTimer_skip_once_not_completed :
    (fixedSkip cfgC4 (fixedStart cfgC4)).1.lifecycle = Lifecycle.running ∧
    (fixedSkip cfgC4 (fixedStart cfgC4)).1.lifecycle ≠ Lifecycle.completed ∧
    (fixedSkip cfgC4 (fixedStart cfgC4)).1.phase = Phase.rest ∧
    (fixedSkip cfgC4 (fixedStart cfgC4)).2 = [] := by
  decide

/-- Claim C4, amended: in a no-rest, no-sides, totalSets = N configuration, calling skip
2N times back-to-back after start (each skip transitions synchronously; a skip in an
exercise phase enters the zero-length rest phase and the next skip leaves it) drives the
lifecycle to completed, firing exactly N - 1 onSetComplete callbacks (sets 1..N-1) and
zero onSideChange callbacks, with no dependence on the clock. -/
theorem useTimer_skipRun_events (cfg : TimerConfig) (n : Nat) (hn : 1 ≤ n)
    (hsets : cfg.sets = n) (hside : cfg.sides = false) (_hrest : cfg.restDuration = 0) :
    (iterStep (fixedSkip cfg) (2 * n) (fixedStart cfg)).1.lifecycle =
      Lifecycle.completed ∧
    (iterStep (fixedSkip cfg) (2 * n) (fixedStart cfg)).2 =
      setCompletes (n - 1) ++ [TimerEvent.complete] ∧
    countSetComplete ((iterStep (fixedSkip cfg) (2 * n) (fixedStart cfg)).2) = n - 1 ∧
    countSideChange ((iterStep (fixedSkip cfg) (2 * n) (fixedStart cfg)).2) = 0 := by
  subst hsets
  have h := noSides_iter_complete cfg (fixedSkip cfg)
    (fun s hs => fixedSkip_running cfg s hs) hside hn
  rw [h]
  refine ⟨rfl, rfl, ?_, ?_⟩
  · rw [countSetComplete_append, countSetComplete_setCompletes]
    rfl
  · rw [countSideChange_append, countSideChange_setCompletes]
    rfl

/-- Claim C4, witness for the amended theorem at N = 2. -/
theorem useTimer_skipRun_events_witness :
    (iterStep (fixedSkip cfgC4w) (2 * 2) (fixedStart cfgC4w)).1.lifecycle =
      Lifecycle.completed ∧
    (iterStep (fixedSkip cfgC4w) (2 * 2) (fixedStart cfgC4w)).2 =
      setCompletes (2 - 1) ++ [TimerEvent.complete] ∧
    countSetComplete ((iterStep (fixedSkip cfgC4w) (2 * 2) (fixedStart cfgC4w)).2) =
      2 - 1 ∧
    countSideChange ((iterStep (fixedSkip cfgC4w) (2 * 2) (fixedStart cfgC4w)).2) = 0 :=
  useTimer_skipRun_events cfgC4w 2 (by decide) rfl rfl rfl

/-- Claim C6: for duration 3, rest 2, sets 2, sequential sides (cfgC6), the run visits
the (set, side) pairs in the order (1,left), (2,left), (1,right), (2,right), then
completed, and fires exactly one onSideChange, which occurs between leaving (2,left)
and entering (1,right) — after four elapses the trace is exactly one set-complete
followed by the side change. -/
theorem sequential_sides_traversal :
    ((List.range 9).map (fun k =>
        ((iterStep (fixedElapse cfgC6) k (fixedStart cfgC6)).1.currentSet,
          (iterStep (fixedElapse cfgC6) k (fixedStart cfgC6)).1.currentSide,
          (iterStep (fixedElapse cfgC6) k (fixedStart cfgC6)).1.phase,
          (iterStep (fixedElapse cfgC6) k (fixedStart cfgC6)).1.lifecycle)) =
      [(1, some Side.left, Phase.exercise, Lifecycle.running),
        (1, some Side.left, Phase.rest, Lifecycle.running),
        (2, some Side.left, Phase.exercise, Lifecycle.running),
        (2, some Side.left, Phase.rest, Lifecycle.running),
        (1, some Side.right, Phase.exercise, Lifecycle.running),
        (1, some Side.right, Phase.rest, Lifecycle.running),
        (2, some Side.right, Phase.exercise, Lifecycle.running),
        (2, some Side.right, Phase.rest, Lifecycle.running),
        (2, some Side.right, Phase.rest, Lifecycle.completed)]) ∧
    (iterStep (fixedElapse cfgC6) 8 (fixedStart cfgC6)).2 =
      [TimerEvent.setComplete 1, TimerEvent.sideChange, TimerEvent.setComplete 1,
        TimerEvent.complete] ∧
    countSideChange ((iterStep (fixedElapse cfgC6) 8 (fixedStart cfgC6)).2) = 1 ∧
    (iterStep (fixedElapse cfgC6) 4 (fixedStart cfgC6)).2 =
      [TimerEvent.setComplete 1, TimerEvent.sideChange] := by
  decide

/-- Claim C2, counterexample.  `ExerciseTimer.pause` does not cancel the pending interval
handle: on a running timer it leaves `timerId` unchanged and only sets the `isPaused`
flag, contradicting the claim that every pending handle is cancelled by the call itself
rather than disabled by a flag. -/
theorem exerciseTimer_pause_keeps_handle :
    (ExerciseTimer.pause c2Timer).timerId = some 1 ∧
    (ExerciseTimer.pause c2Timer).timerId ≠ none ∧
    (ExerciseTimer.pause c2Timer).isPaused = true := by
  decide

/-- Claim C2, amended: the `useTimer` hook pause (from running) and reset (from any
state) do cancel both tracked handles — the interval and the prompt timeout refs are
nulled by `clearTimer` — while `ExerciseTimer.pause` merely sets the `isPaused` flag,
whose effect is that subsequent interval ticks return immediately, leaving the timer
state unchanged and invoking no callbacks. -/
theorem pause_reset_cancel_tracked_handles (cfg : TimerConfig) (s : HookState)
    (h : HookTimers) (d now : Int) (t : ExerciseTimer) :
    (s.lifecycle = Lifecycle.running →
      (fixedPauseFull s h).2.timerRef = none ∧
      (fixedPauseFull s h).2.promptTimeoutRef = none ∧
      (fixedPauseFull s h).1.lifecycle = Lifecycle.paused) ∧
    ((fixedResetFull cfg s h).2.timerRef = none ∧
      (fixedResetFull cfg s h).2.promptTimeoutRef = none ∧
      (fixedResetFull cfg s h).1.lifecycle = Lifecycle.inactive) ∧
    (t.isPaused = true → ExerciseTimer.intervalTick t d now = (t, [])) := by
  refine ⟨?_, ?_, ?_⟩
  · intro hr
    simp [fixedPauseFull, clearTimer, hr]
  · simp [fixedResetFull, clearTimer]
  · intro hp
    simp [ExerciseTimer.intervalTick, hp]

/-- Claim C2, witness for the amended theorem: pausing a freshly started run cancels the
tracked handles, and a flagged tick of a paused `ExerciseTimer` is inert. -/
theorem pause_reset_cancel_tracked_handles_witness :
    ((fixedPauseFull (fixedStart cfgC1) { timerRef := some 5, promptTimeoutRef := some 6 }).2.timerRef
        = none ∧
      (fixedPauseFull (fixedStart cfgC1) { timerRef := some 5, promptTimeoutRef := some 6 }).2.promptTimeoutRef
        = none ∧
      (fixedPauseFull (fixedStart cfgC1) { timerRef := some 5, promptTimeoutRef := some 6 }).1.lifecycle
        = Lifecycle.paused) ∧
    ExerciseTimer.intervalTick c5Timer 3 2000 = (c5Timer, []) := by
  constructor
  · exact (pause_reset_cancel_tracked_handles cfgC1 (fixedStart cfgC1)
      { timerRef := some 5, promptTimeoutRef := some 6 } 3 2000 c5Timer).1 (by decide)
  · exact (pause_reset_cancel_tracked_handles cfgC1 (fixedStart cfgC1)
      { timerRef := some 5, promptTimeoutRef := some 6 } 3 2000 c5Timer).2.2 (by decide)

/-- Claim C5, code-bug evaluation.  Starting an `ExerciseTimer` with duration 3, ticking
once at 1000 ms (2 seconds remaining) and pausing yields `c5Timer`; calling resume on it
throws a ReferenceError, because the body of resume reads the identifier `duration`,
which is the parameter of `start` and is not in scope in resume.  The remaining time is
therefore never re-anchored by resume, contrary to the claimed pause/resume identity. -/
theorem exerciseTimer_resume_reference_error :
    (ExerciseTimer.pause
        (ExerciseTimer.intervalTick
          (ExerciseTimer.start ExerciseTimer.initial 3 0 1).1 3 1000).1) = c5Timer ∧
    (ExerciseTimer.resume c5Timer).2 = some JsError.referenceError := by
  decide

/-- Claim C7, counterexample.  `useSettingsTimer.skip` has no lifecycle guard: invoked in
the `inactive` state it is not a no-op — it mutates the state, entering a running rest
phase; `useSettingsTimer.nextSet` likewise fires an onSetComplete callback from the
`inactive` state. -/
theorem settingsSkip_inactive_not_noop :
    (settingsInit cfgC7).lifecycle = Lifecycle.inactive ∧
    (settingsSkip cfgC7 (settingsInit cfgC7)).1 ≠ settingsInit cfgC7 ∧
    (settingsSkip cfgC7 (settingsInit cfgC7)).1.lifecycle = Lifecycle.running ∧
    (settingsSkip cfgC7 (settingsInit cfgC7)).1.isResting = true ∧
    (settingsNextSet cfgC7 (settingsInit cfgC7)).2 = [TimerEvent.setComplete 1] := by
  decide

/-- Claim C7, amended: pause outside running and resume outside paused are no-ops in both
hooks, and skip and the advance-set command outside running/paused are no-ops (state
unchanged, no callbacks) in the `useTimer` hook; only `useSettingsTimer.skip` and
`useSettingsTimer.nextSet` lack the guard. -/
theorem invalidState_commands_noop (cfg : TimerConfig) (s : HookState)
    (t : SettingsState) :
    (s.lifecycle ≠ Lifecycle.running → fixedPause s = s) ∧
    (s.lifecycle ≠ Lifecycle.paused → fixedResume s = s) ∧
    (s.lifecycle ≠ Lifecycle.running → s.lifecycle ≠ Lifecycle.paused →
      fixedSkip cfg s = (s, []) ∧ fixedNextSet cfg s = (s, [])) ∧
    (t.lifecycle ≠ Lifecycle.running → settingsPause t = t) ∧
    (t.lifecycle ≠ Lifecycle.paused → settingsResume t = t) := by
  refine ⟨?_, ?_, ?_, ?_, ?_⟩
  · intro h
    simp [fixedPause, fixedPauseFull, h]
  · intro h
    simp [fixedResume, h]
  · intro h1 h2
    constructor
    · simp [fixedSkip, h1, h2]
    · simp [fixedNextSet, h1, h2]
  · intro h
    simp [settingsPause, h]
  · intro h
    simp [settingsResume, h]

/-- Claim C7, witness: the guarded commands applied in the inactive state leave it
unchanged. -/
theorem invalidState_commands_noop_witness :
    fixedPause (initialHookState cfgC7) = initialHookState cfgC7 ∧
    fixedResume (initialHookState cfgC7) = initialHookState cfgC7 ∧
    fixedSkip cfgC7 (initialHookState cfgC7) = (initialHookState cfgC7, []) ∧
    fixedNextSet cfgC7 (initialHookState cfgC7) = (initialHookState cfgC7, []) ∧
    settingsPause (settingsInit cfgC7) = settingsInit cfgC7 := by
  refine ⟨?_, ?_, ?_, ?_, ?_⟩
  · exact (invalidState_commands_noop cfgC7 (initialHookState cfgC7)
      (settingsInit cfgC7)).1 (by decide)
  · exact (invalidState_commands_noop cfgC7 (initialHookState cfgC7)
      (settingsInit cfgC7)).2.1 (by decide)
  · exact ((invalidState_commands_noop cfgC7 (initialHookState cfgC7)
      (settingsInit cfgC7)).2.2.1 (by decide) (by decide)).1
  · exact ((invalidState_commands_noop cfgC7 (initialHookState cfgC7)
      (settingsInit cfgC7)).2.2.1 (by decide) (by decide)).2
  · exact (invalidState_commands_noop cfgC7 (initialHookState cfgC7)
      (settingsInit cfgC7)).2.2.2.1 (by decide)

/-- Claim C8, counterexample.  Construction with exerciseDuration = -1 and totalSets = 0
is not rejected: the hook body returns a usable timer state (inactive, and start still
yields a running timer) with no error and no throw. -/
theorem useTimerConstruct_accepts_invalid :
    useTimerConstruct cfgC8 = Except.ok (initialHookState cfgC8) ∧
    cfgC8.duration ≤ 0 ∧
    cfgC8.sets = 0 ∧
    (initialHookState cfgC8).lifecycle = Lifecycle.inactive ∧
    (fixedStartCmd cfgC8 (initialHookState cfgC8)).lifecycle = Lifecycle.running := by
  refine ⟨rfl, by decide, rfl, rfl, rfl⟩

/-- Claim C8, amended: the hooks perform no construction-time validation at all — for
every configuration, including non-positive durations and zero sets, construction
succeeds with the inactive initial snapshot and never returns an error, and start turns
it into a running timer (the `ExerciseTimer` class constructor likewise only stores the
two callbacks and validates nothing). -/
theorem useTimerConstruct_never_rejects (cfg : TimerConfig) :
    useTimerConstruct cfg = Except.ok (initialHookState cfg) ∧
    (useTimerConstruct cfg).isOk = true ∧
    (initialHookState cfg).lifecycle = Lifecycle.inactive ∧
    (fixedStartCmd cfg (initialHookState cfg)).lifecycle = Lifecycle.running :=
  ⟨rfl, rfl, rfl, rfl⟩

/-- Claim C9: when the timer is in the rest phase and restDuration = 0, the derived
percentRemaining divides by zero with no guard and the result is not a finite number
(NaN when the numerator is zero, an infinity otherwise). -/
theorem percentRemaining_restZero_not_finite (t d : ℚ) :
    (percentRemaining (JsNum.finite t) true (JsNum.finite 0)
        (JsNum.finite d)).isFinite = false := by
  by_cases h0 : t = 0
  · simp [percentRemaining, jsDiv, jsMul, JsNum.isFinite, h0]
  · by_cases hp : 0 < t
    · norm_num [percentRemaining, jsDiv, jsMul, JsNum.isFinite, h0, hp]
    · norm_num [percentRemaining, jsDiv, jsMul, JsNum.isFinite, h0, hp]

/-- Claim C9, witness at the concrete rest-phase snapshot with restDuration = 0:
0 seconds remaining over a zero rest duration yields a non-finite percent. -/
theorem percentRemaining_restZero_not_finite_witness :
    (percentRemaining (JsNum.finite 0) true (JsNum.finite 0)
        (JsNum.finite 3)).isFinite = false :=
  percentRemaining_restZero_not_finite 0 3

lemma proceedToNext_set_pos (cfg : TimerConfig) (s : HookState)
    (h : 1 ≤ s.currentSet) : 1 ≤ (proceedToNext cfg s).1.currentSet := by
  unfold proceedToNext exitRest
  split_ifs <;> simp <;> omega

lemma proceedToNext_setComplete_mem (cfg : TimerConfig) (s : HookState)
    (h : 1 ≤ s.currentSet) (k : Nat)
    (hk : TimerEvent.setComplete k ∈ (proceedToNext cfg s).2) :
    1 ≤ k ∧ k < cfg.sets := by
  unfold proceedToNext exitRest at hk
  split_ifs at hk <;> simp_all

lemma fixedReachable_set_pos (cfg : TimerConfig) (s : HookState)
    (hs : FixedReachable cfg s) : 1 ≤ s.currentSet := by
  induction hs with
  | init => exact le_refl 1
  | step c s hprev ih =>
      cases c with
      | start => simp [fixedStep, fixedStartCmd]
      | pause =>
          simp only [fixedStep]
          unfold fixedPause fixedPauseFull
          split_ifs <;> simpa using ih
      | resume =>
          simp only [fixedStep]
          unfold fixedResume
          split_ifs <;> simpa using ih
      | reset => simp [fixedStep, fixedReset, fixedResetFull]
      | skip =>
          simp only [fixedStep]
          unfold fixedSkip
          split_ifs <;>
            first
              | simpa using proceedToNext_set_pos cfg s ih
              | simpa using ih
      | advanceSet =>
          simp only [fixedStep]
          unfold fixedNextSet nextSetTail
          split_ifs <;> simp <;> omega
      | elapse =>
          simp only [fixedStep]
          unfold fixedElapse
          split_ifs
          · exact proceedToNext_set_pos cfg s ih
          · simpa using ih

lemma fixedStep_setComplete_mem (cfg : TimerConfig) (c : Cmd) (s : HookState)
    (h : 1 ≤ s.currentSet) (k : Nat)
    (hk : TimerEvent.setComplete k ∈ (fixedStep cfg c s).2) :
    1 ≤ k ∧ k < cfg.sets := by
  cases c with
  | start => simp [fixedStep] at hk
  | pause => simp [fixedStep] at hk
  | resume => simp [fixedStep] at hk
  | reset => simp [fixedStep] at hk
  | skip =>
      simp only [fixedStep] at hk
      unfold fixedSkip at hk
      split_ifs at hk <;>
        first
          | exact proceedToNext_setComplete_mem cfg s h k hk
          | exact proceedToNext_setComplete_mem cfg s h k (by simp_all)
  | advanceSet =>
      simp only [fixedStep] at hk
      unfold fixedNextSet nextSetTail at hk
      split_ifs at hk <;> simp_all
  | elapse =>
      simp only [fixedStep] at hk
      unfold fixedElapse at hk
      split_ifs at hk
      · exact proceedToNext_setComplete_mem cfg s h k hk
      · simp at hk

/-- Claim C10: every onSetComplete invocation produced by any command from any reachable
state of the `useTimer` hook — the automatic transition in `proceedToNext` or the
advance-set command `nextSet` — carries a set number between 1 and totalSets - 1;
finishing the final set emits no set-complete event. -/
theorem setComplete_in_range (cfg : TimerConfig) (s : HookState) (c : Cmd)
    (hs : FixedReachable cfg s) (k : Nat)
    (hk : TimerEvent.setComplete k ∈ (fixedStep cfg c s).2) :
    1 ≤ k ∧ k ≤ cfg.sets - 1 := by
  have h := fixedStep_setComplete_mem cfg c s (fixedReachable_set_pos cfg s hs) k hk
  exact ⟨h.1, by omega⟩

/-- Claim C10, witness: in the reachable rest state of set 1 of cfgC10, the elapse
transition fires onSetComplete 1, and 1 lies in [1, totalSets - 1]. -/
theorem setComplete_in_range_witness : 1 ≤ 1 ∧ 1 ≤ cfgC10.sets - 1 := by
  have h0 : FixedReachable cfgC10 (initialHookState cfgC10) := FixedReachable.init
  have h1 := FixedReachable.step Cmd.start (initialHookState cfgC10) h0
  have h2 := FixedReachable.step Cmd.elapse
    (fixedStep cfgC10 Cmd.start (initialHookState cfgC10)).1 h1
  have he : (fixedStep cfgC10 Cmd.elapse
      (fixedStep cfgC10 Cmd.start (initialHookState cfgC10)).1).1 = c10State := by decide
  have hr : FixedReachable cfgC10 c10State := he ▸ h2
  exact setComplete_in_range cfgC10 c10State Cmd.elapse hr 1 (by decide)

end Rehabber
